import Mathlib

/-!
Verification development for the transfer-settlement core of
`wormhole-connect`: a shallow embedding of the wrapped-token resolver,
wallet session registry, chain dispatcher, and receipt normalizer,
together with theorems settling the specification's claims.
-/

/-- Chain identifiers (`Chain` in the source) are opaque strings here. -/
abbrev ChainName := String

/-- The slice of `TokenConfig` (config/types) used by the embedded code:
the registry key, display symbol and native chain. -/
structure TokenConfig where
  key : String
  symbol : String
  nativeChain : ChainName
deriving DecidableEq, Repr

/-! ## Wrapped-token resolver (`getTokenBridgeWrappedTokenAddress`) -/

/-- The wrapped-token address cache, keyed by (token key, destination chain).
An association list models `config.wrappedTokenAddressCache`; `get` returns
the first entry for a key and `set` prepends a fresh entry. -/
abbrev WrappedCache := List ((String × ChainName) × String)

/-- Embeds `config.wrappedTokenAddressCache.get(tokenKey, chain)`. -/
def cacheGet (c : WrappedCache) (tokenKey : String) (chain : ChainName) :
    Option String :=
  (c.find? (fun e => e.1 = (tokenKey, chain))).map (·.2)

/-- Embeds `config.wrappedTokenAddressCache.set(tokenKey, chain, address)`. -/
def cacheSet (c : WrappedCache) (tokenKey : String) (chain : ChainName)
    (address : String) : WrappedCache :=
  ((tokenKey, chain), address) :: c

/-- Modelled from the spec: the construction of
`config.wrappedTokenAddressCache` is outside the given sources.  Per the
spec the resolver's first tier is the static built-in config
("static config → cache → live lookup"; cache entries keyed by
(token key, destination chain)), realized by seeding the cache at startup
with the built-in foreign-asset addresses. -/
def initWrappedTokenAddressCache (staticConfig : WrappedCache) : WrappedCache :=
  staticConfig

/-- Outcome of one call to `getTokenBridgeWrappedTokenAddress`:
the returned value (`TokenAddress | null` becomes `Option String`),
the cache after the call, and how many live bridge queries were issued. -/
structure ResolveOutcome where
  result : Option String
  cache : WrappedCache
  liveLookups : Nat
deriving DecidableEq, Repr

/-- Embeds `getTokenBridgeWrappedTokenAddress(token, chain)`.  The live bridge
query `tb.getWrappedAsset(tokenId)` is an oracle argument: `.error ()`
models a thrown exception (caught and converted to `null` by the source),
`.ok none` a null result, `.ok (some w)` a resolved address (written
through into the cache, guarded by the source's `if (wrapped)`). -/
def getTokenBridgeWrappedTokenAddress (cache : WrappedCache)
    (token : TokenConfig) (chain : ChainName)
    (getWrappedAsset : Except Unit (Option String)) : ResolveOutcome :=
  match cacheGet cache token.key chain with
  | some cached => ⟨some cached, cache, 0⟩
  | none =>
    match getWrappedAsset with
    | .error _ => ⟨none, cache, 1⟩
    | .ok none => ⟨none, cache, 1⟩
    | .ok (some wrapped) =>
      ⟨some wrapped, cacheSet cache token.key chain wrapped, 1⟩

/-- Embeds `getTokenBridgeWrappedTokenAddressSync(token, chain)`: consults only
the cache. -/
def getTokenBridgeWrappedTokenAddressSync (cache : WrappedCache)
    (token : TokenConfig) (chain : ChainName) : Option String :=
  cacheGet cache token.key chain

/-! ## Amount rendering

Modelled from the spec: the renderer `amount.display` lives in the external
`@wormhole-foundation/sdk` package.  Per the spec it renders a raw integer
wire amount as a decimal string at the given precision, with trailing
fractional zeros trimmed (decimals 6, wire `150000000` renders `"150"`;
decimals 8, wire `123456789` renders `"1.23456789"`). -/

/-- Drop trailing `'0'` characters from a digit string. -/
def stripTrailingZeros (s : String) : String :=
  String.mk ((s.toList.reverse.dropWhile (fun c => c = '0')).reverse)

/-- Left-pad a digit string with `'0'` to length `n`. -/
def padLeftZeros (s : String) (n : Nat) : String :=
  String.mk (List.replicate (n - s.length) '0' ++ s.toList)

/-- Embeds `amount.display({amount, decimals})`: the wire integer split at
`decimals` digits, fractional part zero-padded then trimmed of trailing
zeros, omitted entirely when empty. -/
def amountDisplay (amt : Nat) (decimals : Nat) : String :=
  let whole := Nat.repr (amt / 10 ^ decimals)
  let frac := stripTrailingZeros (padLeftZeros (Nat.repr (amt % 10 ^ decimals)) decimals)
  if frac.isEmpty then whole else whole ++ "." ++ frac

/-! ## Wallet session registry and chain dispatcher (utils/wallet) -/

/-- The execution-context enumeration (`Context` in sdklegacy). -/
inductive Ctx
| ETH
| SOLANA
| SUI
| APTOS
| SEI
| COSMOS
deriving DecidableEq, Repr

/-- A chain id as the source types it: `number | string`. -/
abbrev ChainIdT := Sum Nat String

/-- The slice of a chain's config the dispatcher reads. -/
structure ChainCfg where
  context : Ctx
deriving DecidableEq, Repr

/-- A connected wallet handle: its reported network chain id
(`getNetworkInfo().chainId`) and its address (`getAddress()`,
possibly absent). -/
structure WalletH where
  networkChainId : ChainIdT
  address : Option String
deriving DecidableEq, Repr

/-- The module-level `walletConnection` singleton: one optional binding
per transfer role. -/
structure WalletConnectionState where
  sending : Option WalletH
  receiving : Option WalletH
deriving DecidableEq, Repr

/-- Embeds `swapWalletConnections()`: exchanges the two role bindings. -/
def swapWalletConnections (s : WalletConnectionState) : WalletConnectionState :=
  { sending := s.receiving, receiving := s.sending }

/-- Errors an adapter's `switchChain` can signal: the wallet-aggregator
`NotSupported` class, or anything else. -/
inductive AdapterError
| notSupported
| other (msg : String)
deriving DecidableEq, Repr

/-- Errors `switchChain` itself can surface: the `must connect wallet`
guard, the runtime TypeError from reading `.context` off a missing
chain config, or a propagated adapter error. -/
inductive SwitchError
| mustConnectWallet
| configMissing
| adapter (e : AdapterError)
deriving DecidableEq, Repr

/-- Outcome of one `switchChain` call: its result
(`Promise<string | undefined>` becomes `Except SwitchError (Option String)`)
plus how many times each context adapter's switch routine was invoked. -/
structure SwitchOutcome where
  result : Except SwitchError (Option String)
  evmCalls : Nat
  cosmosCalls : Nat
deriving Repr

/-- Embeds `switchChain(chainId, type)`.  `conn` is `walletConnection[type]`,
`chainCfg` the result of `getChainByChainId(chainId)`, and the two
adapter oracles model the lazily imported `utils/wallet/evm` and
`utils/wallet/cosmos` switch routines.  The early return when the wallet
already reports `chainId` produces `undefined` (`.ok none`); so does the
EVM branch's `NotSupported` catch. -/
def switchChain (conn : Option WalletH) (chainCfg : Option ChainCfg)
    (chainId : ChainIdT)
    (evmSwitch cosmosSwitch : Except AdapterError Unit) : SwitchOutcome :=
  match conn with
  | none => ⟨.error .mustConnectWallet, 0, 0⟩
  | some w =>
    if w.networkChainId = chainId then ⟨.ok none, 0, 0⟩
    else
      match chainCfg with
      | none => ⟨.error .configMissing, 0, 0⟩
      | some cfg =>
        if cfg.context = .ETH then
          match evmSwitch with
          | .error .notSupported => ⟨.ok none, 1, 0⟩
          | .error e => ⟨.error (.adapter e), 1, 0⟩
          | .ok _ => ⟨.ok w.address, 1, 0⟩
        else if cfg.context = .COSMOS then
          match cosmosSwitch with
          | .error e => ⟨.error (.adapter e), 0, 1⟩
          | .ok _ => ⟨.ok w.address, 0, 1⟩
        else ⟨.ok w.address, 0, 0⟩

/-- Embeds `signAndSendTransaction(chain, request, walletType, options)`.
`chainCfg` is `config.chains[chain]`; the four adapter oracles model the
lazily imported per-context `signAndSendTransaction` routines, each
already reduced to the transaction id string the dispatcher returns
(`tx`, `signature`, `tx.id`, `tx.id` respectively). -/
def signAndSendTransaction (chainCfg : Option ChainCfg)
    (conn : Option WalletH)
    (evmSend solanaSend suiSend aptosSend : Except String String) :
    Except String String :=
  match conn with
  | none => .error "wallet is undefined"
  | some _ =>
    match chainCfg with
    | none => .error "chain config missing"
    | some cfg =>
      if cfg.context = .ETH then evmSend
      else if cfg.context = .SOLANA then solanaSend
      else if cfg.context = .SUI then suiSend
      else if cfg.context = .APTOS then aptosSend
      else .error "unimplemented"

/-- A wallet option as returned by `getWalletOptions` (only the `name`
field is read by `connectLastUsedWallet`). -/
structure WalletOption where
  name : String
deriving DecidableEq, Repr

/-- Outcome of `connectLastUsedWallet`: the call's result and how many
times `connectWallet` was attempted. -/
structure RestoreOutcome where
  result : Except String Unit
  connectAttempts : Nat
deriving Repr

/-- Embeds `connectLastUsedWallet(type, chain, dispatch)`.  `marker` is
`localStorage.getItem("wormhole-connect:wallet:" + context)`; the guard
`lastUsedWallet && lastUsedWallet !== 'WalletConnect'` makes the empty
string (falsy) skip as well.  `options` is the `getWalletOptions` result
and `connectResult` the oracle outcome of the inner `connectWallet`
call, which the source does not guard with any try/catch. -/
def connectLastUsedWallet (marker : Option String)
    (options : List WalletOption)
    (connectResult : Except String Unit) : RestoreOutcome :=
  match marker with
  | none => ⟨.ok (), 0⟩
  | some lastUsedWallet =>
    if lastUsedWallet ≠ "" ∧ lastUsedWallet ≠ "WalletConnect" then
      match options.find? (fun w => w.name == lastUsedWallet) with
      | some _ => ⟨connectResult, 1⟩
      | none => ⟨.ok (), 0⟩
    else ⟨.ok (), 0⟩

/-! ## Receipt normalizer (`parseReceipt` and the per-protocol parsers) -/

/-- One entry of a receipt's `originTxs` list. -/
structure TransactionId where
  txid : String
deriving DecidableEq, Repr

/-- The canonical transfer record.  Fields the source may leave unset
despite the interface typing them required (`recipient` when the payload
has no `to`, `sender` in the token-bridge path) are `Option`s here;
amount-like values the source converts through `Number(...)` are kept as
their rendered decimal strings. -/
structure TransferInfo where
  sendTx : String
  sender : Option String
  recipient : Option String
  amount : String
  toChain : ChainName
  fromChain : ChainName
  tokenAddress : Option String
  tokenKey : Option String
  tokenDecimals : Nat
  receivedTokenKey : Option String
  receiveAmount : Option String
  receiveNativeAmount : Option String
  relayerFee : Option (String × String)
deriving DecidableEq, Repr

/-- The distinct `throw new Error(...)` sites of the normalizer. -/
inductive ParseError
| missingSourceTx
| missingToken
| unknownToken
| missingSolanaRpc
| missingCircleAttestation
| unknownSourceUsdc
| unknownDestinationUsdc
| unknownSrcToken
| unknownDstToken
| unknownRoute (r : String)
deriving DecidableEq, Repr

/-- Embeds `payload.token` of a token-bridge VAA: token chain, token address,
and the raw wire amount (a bigint). -/
structure TBToken where
  chain : ChainName
  address : String
  amount : Nat
deriving DecidableEq, Repr

/-- The automatic-relay extension fields `payload.payload` of a
token-bridge VAA. -/
structure TBExtraPayload where
  toNativeTokenAmount : Option Nat
  targetRelayerFee : Option Nat
deriving DecidableEq, Repr

/-- Embeds `payload.to` of a token-bridge VAA, with the address already
rendered by `.toNative(receipt.to).toString()`. -/
structure TBDest where
  address : String
deriving DecidableEq, Repr

/-- The decoded payload `receipt.attestation.attestation.payload`. -/
structure TBPayload where
  token : Option TBToken
  payloadExt : Option TBExtraPayload
  toDest : Option TBDest
deriving DecidableEq, Repr

/-- A token-bridge receipt as `parseTokenBridgeReceipt` reads it. -/
structure TBReceipt where
  rFrom : ChainName
  rTo : ChainName
  originTxs : Option (List TransactionId)
  payload : TBPayload
deriving DecidableEq, Repr

/-- Oracles for the token-bridge parser's external lookups:
`tb.getTokenNativeAddress(...).toString()`, `findTokenConfigV1`,
`getTokenDecimals`, `config.rpcs.Solana`, and the `splToken.getAccount`
owner lookup (`none` models the caught exception with its fallback). -/
structure TBEnv where
  nativeAddress : String
  tokenV1 : Option TokenConfig
  decimals : Nat
  solanaRpc : Option String
  ataOwner : Option String
deriving DecidableEq, Repr

/-- The shared `originTxs` guard of all three parsers: the last origin
transaction when the list is present and non-empty. -/
def lastOriginTx : Option (List TransactionId) → Option TransactionId
| some txs => txs.getLast?
| none => none

/-- The `payload.to` handling of `parseTokenBridgeReceipt`: on a Solana
destination the recipient is the ATA's owner when the account lookup
succeeds, the ATA itself when it throws (caught and logged), and the
whole parse fails when no Solana RPC is configured. -/
def tbRecipient (r : TBReceipt) (env : TBEnv) :
    Except ParseError (Option String) :=
  match r.payload.toDest with
  | some d =>
    if r.rTo = "Solana" then
      match env.solanaRpc with
      | none => .error .missingSolanaRpc
      | some _ =>
        match env.ataOwner with
        | some owner => .ok (some owner)
        | none => .ok (some d.address)
    else .ok (some d.address)
  | none => .ok none

/-- Embeds `parseTokenBridgeReceipt(receipt)`. -/
def parseTokenBridgeReceipt (r : TBReceipt) (env : TBEnv) :
    Except ParseError TransferInfo :=
  match lastOriginTx r.originTxs with
  | none => .error .missingSourceTx
  | some lastTx =>
    match r.payload.token with
    | none => .error .missingToken
    | some tok =>
      match env.tokenV1 with
      | none => .error .unknownToken
      | some tokenV1 =>
        let decimals := env.decimals
        let amt := amountDisplay tok.amount (min 8 decimals)
        match tbRecipient r env with
        | .error e => .error e
        | .ok recipient =>
          .ok {
            sendTx := lastTx.txid
            sender := none
            recipient := recipient
            amount := amt
            toChain := r.rTo
            fromChain := r.rFrom
            tokenAddress := some env.nativeAddress
            tokenKey := some tokenV1.key
            tokenDecimals := decimals
            receivedTokenKey := some tokenV1.key
            receiveAmount := some amt
            receiveNativeAmount :=
              match r.payload.payloadExt with
              | some ext =>
                match ext.toNativeTokenAmount with
                | some n =>
                  if n ≠ 0 then some (amountDisplay n (min 8 decimals)) else none
                | none => none
              | none => none
            relayerFee :=
              match r.payload.payloadExt with
              | some ext =>
                match ext.targetRelayerFee with
                | some f =>
                  if f ≠ 0 then
                    some (amountDisplay f (min 8 decimals), tokenV1.key)
                  else none
                | none => none
              | none => none
          }

/-- The payload of a Circle attestation message
(`receipt.attestation.attestation.message.payload`), addresses already
rendered by `.toNative(...).toString()`. -/
structure CCTPPayload where
  burnToken : String
  amount : Nat
  messageSender : String
  mintRecipient : String
deriving DecidableEq, Repr

/-- A CCTP receipt as `parseCCTPReceipt` reads it; `attestation = none`
models a null `receipt.attestation.attestation`. -/
structure CCTPReceipt where
  rFrom : ChainName
  rTo : ChainName
  originTxs : Option (List TransactionId)
  attestation : Option CCTPPayload
deriving DecidableEq, Repr

/-- Oracles for the CCTP parser: `findTokenConfigV1` for the burned
asset, `getTokenDecimals`, the token registry `config.tokensArr`
(searched inline for the destination USDC), the Solana RPC config and
the ATA owner lookup. -/
structure CCTPEnv where
  usdcLegacy : Option TokenConfig
  decimals : Nat
  tokensArr : List TokenConfig
  solanaRpc : Option String
  ataOwner : Option String
deriving DecidableEq, Repr

/-- The mint-recipient handling of `parseCCTPReceipt`, with the same
Solana ATA-owner special case as the token-bridge path. -/
def cctpRecipient (r : CCTPReceipt) (payload : CCTPPayload) (env : CCTPEnv) :
    Except ParseError String :=
  if r.rTo = "Solana" then
    match env.solanaRpc with
    | none => .error .missingSolanaRpc
    | some _ =>
      match env.ataOwner with
      | some owner => .ok owner
      | none => .ok payload.mintRecipient
  else .ok payload.mintRecipient

/-- Embeds `parseCCTPReceipt(receipt)`. -/
def parseCCTPReceipt (r : CCTPReceipt) (env : CCTPEnv) :
    Except ParseError TransferInfo :=
  match lastOriginTx r.originTxs with
  | none => .error .missingSourceTx
  | some lastTx =>
    match r.attestation with
    | none => .error .missingCircleAttestation
    | some payload =>
      match env.usdcLegacy with
      | none => .error .unknownSourceUsdc
      | some usdcLegacy =>
        let decimals := env.decimals
        let amt := amountDisplay payload.amount decimals
        match cctpRecipient r payload env with
        | .error e => .error e
        | .ok recipient =>
          match env.tokensArr.find?
              (fun t => t.symbol == "USDC" && t.nativeChain == r.rTo) with
          | none => .error .unknownDestinationUsdc
          | some destinationUsdcLegacy =>
            .ok {
              sendTx := lastTx.txid
              sender := some payload.messageSender
              recipient := some recipient
              amount := amt
              toChain := r.rTo
              fromChain := r.rFrom
              tokenAddress := some payload.burnToken
              tokenKey := some usdcLegacy.key
              tokenDecimals := decimals
              receivedTokenKey := some destinationUsdcLegacy.key
              receiveAmount := some amt
              receiveNativeAmount := none
              relayerFee := none
            }

/-- The NTT trimmed amount: raw amount plus its own decimal count. -/
structure TrimmedAmount where
  amount : Nat
  decimals : Nat
deriving DecidableEq, Repr

/-- Embeds `payload.nttManagerPayload`, addresses already rendered by
`.toNative(...).toString()`. -/
structure NttManagerPayload where
  sender : String
  recipientAddress : String
  trimmedAmount : TrimmedAmount
deriving DecidableEq, Repr

/-- An NTT payload as destructured by the parser. -/
structure NttPayload where
  nttManagerPayload : NttManagerPayload
deriving DecidableEq, Repr

/-- Embeds `receipt.attestation.attestation`: carries a `payloadName` tag and a
payload in one of two equivalent shapes — destructured from the
attestation itself when the tag is `WormholeTransfer`, else from its
nested `payload` field. -/
structure NttAttestation where
  payloadName : String
  payloadDirect : NttPayload
  payloadNested : NttPayload
deriving DecidableEq, Repr

/-- Embeds `receipt.params.normalizedParams`: the already-validated source and
destination token contract addresses. -/
structure NttParams where
  sourceToken : String
  destinationToken : String
deriving DecidableEq, Repr

/-- An NTT receipt as `parseNttReceipt` reads it. -/
structure NttReceipt where
  rFrom : ChainName
  rTo : ChainName
  originTxs : Option (List TransactionId)
  attestation : NttAttestation
  params : NttParams
deriving DecidableEq, Repr

/-- Oracles for the NTT parser: `findTokenConfigV1` on the source and
destination token ids, and `srcTokenV1.tokenId!.address.toString()`. -/
structure NttEnv where
  srcTokenV1 : Option TokenConfig
  dstTokenV1 : Option TokenConfig
  srcTokenAddress : String
deriving DecidableEq, Repr

/-- Embeds `parseNttReceipt(receipt)`; shared by the manual and automatic NTT
route kinds. -/
def parseNttReceipt (r : NttReceipt) (env : NttEnv) :
    Except ParseError TransferInfo :=
  match lastOriginTx r.originTxs with
  | none => .error .missingSourceTx
  | some lastTx =>
    match env.srcTokenV1 with
    | none => .error .unknownSrcToken
    | some srcTokenV1 =>
      match env.dstTokenV1 with
      | none => .error .unknownDstToken
      | some dstTokenV1 =>
        let payload :=
          if r.attestation.payloadName = "WormholeTransfer" then
            r.attestation.payloadDirect
          else r.attestation.payloadNested
        let ta := payload.nttManagerPayload.trimmedAmount
        let amt := amountDisplay ta.amount ta.decimals
        .ok {
          sendTx := lastTx.txid
          sender := some payload.nttManagerPayload.sender
          recipient := some payload.nttManagerPayload.recipientAddress
          amount := amt
          toChain := r.rTo
          fromChain := r.rFrom
          tokenAddress := some env.srcTokenAddress
          tokenKey := some srcTokenV1.key
          tokenDecimals := ta.decimals
          receivedTokenKey := some dstTokenV1.key
          receiveAmount := some amt
          receiveNativeAmount := none
          relayerFee := none
        }

/-- A receipt with its per-protocol oracle environment, as handed to the
`parseReceipt` dispatcher (the source narrows by unchecked cast; the
constructor here records which shape the receipt actually has). -/
inductive AnyReceipt
| tb (r : TBReceipt) (env : TBEnv)
| cctp (r : CCTPReceipt) (env : CCTPEnv)
| ntt (r : NttReceipt) (env : NttEnv)
deriving Repr

/-- The origin-transaction list of any receipt shape. -/
def originTxsOf : AnyReceipt → Option (List TransactionId)
| .tb r _ => r.originTxs
| .cctp r _ => r.originTxs
| .ntt r _ => r.originTxs

/-- Whether a receipt has the shape the source's cast assumes for a
route kind. -/
def routeMatches (route : String) : AnyReceipt → Bool
| .tb _ _ => route == "ManualTokenBridge"
| .cctp _ _ => route == "ManualCCTP"
| .ntt _ _ => route == "ManualNtt" || route == "AutomaticNtt"

/-- Embeds `parseReceipt(route, receipt)`: dispatch by route kind.  A receipt
whose shape does not match the route models a violated cast precondition
and is mapped to the unknown-route error. -/
def parseReceipt (route : String) (r : AnyReceipt) :
    Except ParseError TransferInfo :=
  match route, r with
  | "ManualTokenBridge", .tb rc env => parseTokenBridgeReceipt rc env
  | "ManualCCTP", .cctp rc env => parseCCTPReceipt rc env
  | "ManualNtt", .ntt rc env => parseNttReceipt rc env
  | "AutomaticNtt", .ntt rc env => parseNttReceipt rc env
  | other, _ => .error (.unknownRoute other)

/-! ## Concrete inputs used by witnesses -/

/-- A CCTP receipt with an empty origin-transaction list. -/
def cctpReceiptEmpty : CCTPReceipt :=
  { rFrom := "Ethereum", rTo := "Base", originTxs := some [], attestation := none }

/-- An oracle environment for `cctpReceiptEmpty`. -/
def cctpEnvEmpty : CCTPEnv :=
  { usdcLegacy := none, decimals := 6, tokensArr := [], solanaRpc := none,
    ataOwner := none }

/-- An NTT receipt with two origin transactions. -/
def nttReceiptTwo : NttReceipt :=
  { rFrom := "Ethereum", rTo := "Solana",
    originTxs := some [⟨"0xfirst"⟩, ⟨"0xlast"⟩],
    attestation :=
      { payloadName := "WormholeTransfer",
        payloadDirect :=
          ⟨{ sender := "0xsender", recipientAddress := "solrecipient",
             trimmedAmount := ⟨123456789, 8⟩ }⟩,
        payloadNested :=
          ⟨{ sender := "0xsender", recipientAddress := "solrecipient",
             trimmedAmount := ⟨123456789, 8⟩ }⟩ },
    params := { sourceToken := "0xsrc", destinationToken := "soldst" } }

/-- An oracle environment for `nttReceiptTwo`. -/
def nttEnvTwo : NttEnv :=
  { srcTokenV1 := some ⟨"W", "W", "Ethereum"⟩,
    dstTokenV1 := some ⟨"Wsol", "W", "Solana"⟩,
    srcTokenAddress := "0xsrc" }

/-- The transfer record `parseNttReceipt` produces for `nttReceiptTwo`. -/
def nttInfoTwo : TransferInfo :=
  { sendTx := "0xlast", sender := some "0xsender",
    recipient := some "solrecipient", amount := "1.23456789",
    toChain := "Solana", fromChain := "Ethereum",
    tokenAddress := some "0xsrc", tokenKey := some "W", tokenDecimals := 8,
    receivedTokenKey := some "Wsol", receiveAmount := some "1.23456789",
    receiveNativeAmount := none, relayerFee := none }

/-- A token-bridge receipt carrying an 18-decimal token with wire amount
123456789 (8-decimal wire precision, 1.23456789 units). -/
def tbReceipt18 : TBReceipt :=
  { rFrom := "Ethereum", rTo := "Polygon",
    originTxs := some [⟨"0xtb18"⟩],
    payload :=
      { token := some ⟨"Ethereum", "0xweth", 123456789⟩,
        payloadExt := none, toDest := some ⟨"0xdest"⟩ } }

/-- Oracle environment for `tbReceipt18`: the token resolves to an
18-decimal config entry. -/
def tbEnv18 : TBEnv :=
  { nativeAddress := "0xnative", tokenV1 := some ⟨"WETH", "WETH", "Ethereum"⟩,
    decimals := 18, solanaRpc := none, ataOwner := none }

/-- A token-bridge receipt carrying a 6-decimal token with wire amount
150000000 (150 units). -/
def tbReceipt6 : TBReceipt :=
  { rFrom := "Ethereum", rTo := "Polygon",
    originTxs := some [⟨"0xtb6"⟩],
    payload :=
      { token := some ⟨"Ethereum", "0xusdc", 150000000⟩,
        payloadExt := none, toDest := some ⟨"0xdest"⟩ } }

/-- Oracle environment for `tbReceipt6`: the token resolves to a
6-decimal config entry. -/
def tbEnv6 : TBEnv :=
  { nativeAddress := "0xnative", tokenV1 := some ⟨"USDC", "USDC", "Ethereum"⟩,
    decimals := 6, solanaRpc := none, ataOwner := none }

/-! ## Claim theorems -/

/-- Reading back the entry `cacheSet` just wrote. -/
theorem cacheGet_cacheSet (c : WrappedCache) (k : String) (ch : ChainName)
    (v : String) : cacheGet (cacheSet c k ch v) k ch = some v := by
  simp [cacheGet, cacheSet, List.find?]

/-- C9: a single `swapWalletConnections` exchanges the sending and
receiving bindings (absent bindings included), and applying it twice
restores the original state exactly (involution). -/
theorem swapWalletConnections_involution :
    ∀ s : WalletConnectionState,
      swapWalletConnections (swapWalletConnections s) = s ∧
      (swapWalletConnections s).sending = s.receiving ∧
      (swapWalletConnections s).receiving = s.sending := by
  intro s
  exact ⟨rfl, rfl, rfl⟩

/-- C2: the wrapped-token resolve consults the tiers in priority order —
the static built-in config (seeded into the cache at startup, per the
spec-modelled `initWrappedTokenAddressCache`) and the process cache are
answered with zero live queries; a cache miss issues one live bridge
query whose successful result is written through into the cache; a live
failure (the thrown exception, absorbed by the total return type) or a
null result yields not-found with the cache unchanged. -/
theorem getTokenBridgeWrappedTokenAddress_tiers :
    (∀ sc (token : TokenConfig) chain a live,
        cacheGet (initWrappedTokenAddressCache sc) token.key chain = some a →
        getTokenBridgeWrappedTokenAddress (initWrappedTokenAddressCache sc)
            token chain live
          = ⟨some a, initWrappedTokenAddressCache sc, 0⟩) ∧
    (∀ c (token : TokenConfig) chain a live,
        cacheGet c token.key chain = some a →
        getTokenBridgeWrappedTokenAddress c token chain live = ⟨some a, c, 0⟩) ∧
    (∀ c (token : TokenConfig) chain w,
        cacheGet c token.key chain = none →
        getTokenBridgeWrappedTokenAddress c token chain (.ok (some w))
          = ⟨some w, cacheSet c token.key chain w, 1⟩) ∧
    (∀ c (token : TokenConfig) chain,
        cacheGet c token.key chain = none →
        getTokenBridgeWrappedTokenAddress c token chain (.error ())
          = ⟨none, c, 1⟩ ∧
        getTokenBridgeWrappedTokenAddress c token chain (.ok none)
          = ⟨none, c, 1⟩) := by
  refine ⟨?_, ?_, ?_, ?_⟩
  · intro sc token chain a live h
    simp [getTokenBridgeWrappedTokenAddress, h]
  · intro c token chain a live h
    simp [getTokenBridgeWrappedTokenAddress, h]
  · intro c token chain w h
    simp [getTokenBridgeWrappedTokenAddress, h]
  · intro c token chain h
    exact ⟨by simp [getTokenBridgeWrappedTokenAddress, h],
           by simp [getTokenBridgeWrappedTokenAddress, h]⟩

/-- C2 witness: with an empty cache and one static-config entry for
(WETH, Polygon), the static tier answers with no live query; on a fresh
key a successful live query writes through. -/
theorem getTokenBridgeWrappedTokenAddress_tiers_witness :
    getTokenBridgeWrappedTokenAddress
        (initWrappedTokenAddressCache [(("WETH", "Polygon"), "0xCfg")])
        ⟨"WETH", "WETH", "Ethereum"⟩ "Polygon" (.error ())
      = ⟨some "0xCfg", initWrappedTokenAddressCache [(("WETH", "Polygon"), "0xCfg")], 0⟩ ∧
    getTokenBridgeWrappedTokenAddress [] ⟨"WETH", "WETH", "Ethereum"⟩ "Polygon"
        (.ok (some "0xW"))
      = ⟨some "0xW", cacheSet [] "WETH" "Polygon" "0xW", 1⟩ :=
  ⟨getTokenBridgeWrappedTokenAddress_tiers.1 [(("WETH", "Polygon"), "0xCfg")]
      ⟨"WETH", "WETH", "Ethereum"⟩ "Polygon" "0xCfg" (.error ()) (by decide),
   getTokenBridgeWrappedTokenAddress_tiers.2.2.1 [] ⟨"WETH", "WETH", "Ethereum"⟩
      "Polygon" "0xW" (by decide)⟩

/-- C7: starting from a cache with no entry for the pair, resolving
twice with a successful first live lookup performs exactly one live
lookup in total; the second call is answered from the cache and returns
the same address. -/
theorem getTokenBridgeWrappedTokenAddress_idempotent_lookup :
    ∀ c (token : TokenConfig) chain a live2,
      cacheGet c token.key chain = none →
      (getTokenBridgeWrappedTokenAddress c token chain (.ok (some a))).result
          = some a ∧
      (getTokenBridgeWrappedTokenAddress
          (getTokenBridgeWrappedTokenAddress c token chain (.ok (some a))).cache
          token chain live2).result = some a ∧
      (getTokenBridgeWrappedTokenAddress c token chain (.ok (some a))).liveLookups
        = 1 ∧
      (getTokenBridgeWrappedTokenAddress
          (getTokenBridgeWrappedTokenAddress c token chain (.ok (some a))).cache
          token chain live2).liveLookups = 0 := by
  intro c token chain a live2 h
  have h1 : getTokenBridgeWrappedTokenAddress c token chain (.ok (some a))
      = ⟨some a, cacheSet c token.key chain a, 1⟩ := by
    simp [getTokenBridgeWrappedTokenAddress, h]
  have h2 : getTokenBridgeWrappedTokenAddress (cacheSet c token.key chain a)
      token chain live2 = ⟨some a, cacheSet c token.key chain a, 0⟩ := by
    simp [getTokenBridgeWrappedTokenAddress, cacheGet_cacheSet]
  rw [h1]
  exact ⟨rfl, by rw [h2], rfl, by rw [h2]⟩

/-- C7 witness: concrete double resolve of (WETH, Polygon) from the
empty cache. -/
theorem getTokenBridgeWrappedTokenAddress_idempotent_lookup_witness :
    (getTokenBridgeWrappedTokenAddress [] ⟨"WETH", "WETH", "Ethereum"⟩ "Polygon"
        (.ok (some "0xW"))).result = some "0xW" ∧
    (getTokenBridgeWrappedTokenAddress
        (getTokenBridgeWrappedTokenAddress [] ⟨"WETH", "WETH", "Ethereum"⟩
            "Polygon" (.ok (some "0xW"))).cache
        ⟨"WETH", "WETH", "Ethereum"⟩ "Polygon" (.error ())).result = some "0xW" ∧
    (getTokenBridgeWrappedTokenAddress [] ⟨"WETH", "WETH", "Ethereum"⟩ "Polygon"
        (.ok (some "0xW"))).liveLookups = 1 ∧
    (getTokenBridgeWrappedTokenAddress
        (getTokenBridgeWrappedTokenAddress [] ⟨"WETH", "WETH", "Ethereum"⟩
            "Polygon" (.ok (some "0xW"))).cache
        ⟨"WETH", "WETH", "Ethereum"⟩ "Polygon" (.error ())).liveLookups = 0 :=
  getTokenBridgeWrappedTokenAddress_idempotent_lookup [] ⟨"WETH", "WETH", "Ethereum"⟩
    "Polygon" "0xW" (.error ()) (by decide)

/-- C10: the cache only changes when the live query succeeds with a
non-null address (and then only by writing that address); a thrown or
null live result leaves the cache unchanged and returns not-found, so a
later resolve of the same pair issues a live lookup again. -/
theorem getTokenBridgeWrappedTokenAddress_no_negative_caching :
    ∀ c (token : TokenConfig) chain,
      (∀ live, (getTokenBridgeWrappedTokenAddress c token chain live).cache ≠ c →
        ∃ w, live = .ok (some w) ∧
          (getTokenBridgeWrappedTokenAddress c token chain live).result = some w ∧
          (getTokenBridgeWrappedTokenAddress c token chain live).cache
            = cacheSet c token.key chain w) ∧
      (cacheGet c token.key chain = none →
        getTokenBridgeWrappedTokenAddress c token chain (.error ()) = ⟨none, c, 1⟩ ∧
        getTokenBridgeWrappedTokenAddress c token chain (.ok none) = ⟨none, c, 1⟩ ∧
        (getTokenBridgeWrappedTokenAddress
            (getTokenBridgeWrappedTokenAddress c token chain (.error ())).cache
            token chain (.error ())).liveLookups = 1) := by
  intro c token chain
  constructor
  · intro live hne
    cases hc : cacheGet c token.key chain with
    | some a =>
      exact absurd (by simp [getTokenBridgeWrappedTokenAddress, hc]) hne
    | none =>
      match live with
      | .error _ =>
        exact absurd (by simp [getTokenBridgeWrappedTokenAddress, hc]) hne
      | .ok none =>
        exact absurd (by simp [getTokenBridgeWrappedTokenAddress, hc]) hne
      | .ok (some w) =>
        exact ⟨w, rfl, by simp [getTokenBridgeWrappedTokenAddress, hc],
               by simp [getTokenBridgeWrappedTokenAddress, hc]⟩
  · intro h
    have hf : getTokenBridgeWrappedTokenAddress c token chain (.error ())
        = ⟨none, c, 1⟩ := by simp [getTokenBridgeWrappedTokenAddress, h]
    refine ⟨hf, by simp [getTokenBridgeWrappedTokenAddress, h], ?_⟩
    rw [hf]
    simp [getTokenBridgeWrappedTokenAddress, h]

/-- C10 witness: a failed live lookup of (WETH, Polygon) on the empty
cache leaves it empty and a retried resolve queries live again; a
successful lookup is the only way the cache grows. -/
theorem getTokenBridgeWrappedTokenAddress_no_negative_caching_witness :
    getTokenBridgeWrappedTokenAddress [] ⟨"WETH", "WETH", "Ethereum"⟩ "Polygon"
        (.error ()) = ⟨none, [], 1⟩ ∧
    (getTokenBridgeWrappedTokenAddress
        (getTokenBridgeWrappedTokenAddress [] ⟨"WETH", "WETH", "Ethereum"⟩
            "Polygon" (.error ())).cache
        ⟨"WETH", "WETH", "Ethereum"⟩ "Polygon" (.error ())).liveLookups = 1 ∧
    (∃ w, (Except.ok (some "0xW") : Except Unit (Option String)) = .ok (some w) ∧
      (getTokenBridgeWrappedTokenAddress [] ⟨"WETH", "WETH", "Ethereum"⟩ "Polygon"
          (.ok (some "0xW"))).result = some w ∧
      (getTokenBridgeWrappedTokenAddress [] ⟨"WETH", "WETH", "Ethereum"⟩ "Polygon"
          (.ok (some "0xW"))).cache
        = cacheSet [] (TokenConfig.mk "WETH" "WETH" "Ethereum").key "Polygon" w) :=
  ⟨((getTokenBridgeWrappedTokenAddress_no_negative_caching []
        ⟨"WETH", "WETH", "Ethereum"⟩ "Polygon").2 (by decide)).1,
   ((getTokenBridgeWrappedTokenAddress_no_negative_caching []
        ⟨"WETH", "WETH", "Ethereum"⟩ "Polygon").2 (by decide)).2.2,
   (getTokenBridgeWrappedTokenAddress_no_negative_caching []
        ⟨"WETH", "WETH", "Ethereum"⟩ "Polygon").1 (.ok (some "0xW"))
      (by decide)⟩

/-- C1 counterexample: a wallet bound to the role, reporting chain id 1
with address `0xabc`, asked to switch to chain id 1: the call makes no
adapter call but returns `undefined` (`.ok none`), not the wallet's
current address — the source's early exit is a bare `return;`. -/
theorem switchChain_same_chain_counterexample :
    (switchChain (some ⟨Sum.inl 1, some "0xabc"⟩) (some ⟨Ctx.ETH⟩) (Sum.inl 1)
        (.ok ()) (.ok ())).result = .ok none ∧
    (switchChain (some ⟨Sum.inl 1, some "0xabc"⟩) (some ⟨Ctx.ETH⟩) (Sum.inl 1)
        (.ok ()) (.ok ())).result ≠ .ok (some "0xabc") := by
  constructor
  · rfl
  · intro h
    exact Option.noConfusion (Except.ok.inj h)

/-- C1 (amended): when the bound wallet already reports the target chain
id, `switchChain` makes no adapter call and returns `undefined` (no
address), regardless of the chain config and the adapter outcomes. -/
theorem switchChain_same_chain_noop :
    ∀ (w : WalletH) chainCfg chainId evmSwitch cosmosSwitch,
      w.networkChainId = chainId →
      switchChain (some w) chainCfg chainId evmSwitch cosmosSwitch
        = ⟨.ok none, 0, 0⟩ := by
  intro w chainCfg chainId evmSwitch cosmosSwitch h
  simp [switchChain, h]

/-- C1 witness: concrete no-op switch at chain id 1. -/
theorem switchChain_same_chain_noop_witness :
    switchChain (some ⟨Sum.inl 1, some "0xabc"⟩) (some ⟨Ctx.ETH⟩) (Sum.inl 1)
        (.error (.other "boom")) (.error (.other "boom"))
      = ⟨.ok none, 0, 0⟩ :=
  switchChain_same_chain_noop ⟨Sum.inl 1, some "0xabc"⟩ (some ⟨Ctx.ETH⟩)
    (Sum.inl 1) (.error (.other "boom")) (.error (.other "boom")) rfl

/-- C5 counterexample: on a Cosmos-family chain whose adapter signals
`NotSupported`, `switchChain` raises — the Cosmos delegation has no
try/catch, so the unsupported signal propagates instead of being
reclassified as success. -/
theorem switchChain_cosmos_notSupported_counterexample :
    (switchChain (some ⟨Sum.inl 1, some "addr1"⟩) (some ⟨Ctx.COSMOS⟩)
        (Sum.inr "osmosis-1") (.ok ()) (.error .notSupported)).result
      = .error (.adapter .notSupported) := by
  rfl

/-- C5 (amended): only the EVM-family delegation reclassifies the
adapter's `NotSupported` as success (returning `undefined`), while its
other errors propagate; the Cosmos-family delegation propagates every
adapter error, `NotSupported` included. -/
theorem switchChain_unsupported_policy :
    ∀ (w : WalletH) chainId evmSwitch cosmosSwitch,
      w.networkChainId ≠ chainId →
      switchChain (some w) (some ⟨Ctx.ETH⟩) chainId (.error .notSupported)
          cosmosSwitch = ⟨.ok none, 1, 0⟩ ∧
      (∀ msg,
        switchChain (some w) (some ⟨Ctx.ETH⟩) chainId (.error (.other msg))
            cosmosSwitch = ⟨.error (.adapter (.other msg)), 1, 0⟩) ∧
      (∀ e,
        switchChain (some w) (some ⟨Ctx.COSMOS⟩) chainId evmSwitch (.error e)
          = ⟨.error (.adapter e), 0, 1⟩) := by
  intro w chainId evmSwitch cosmosSwitch h
  refine ⟨?_, ?_, ?_⟩
  · simp [switchChain, h]
  · intro msg
    simp [switchChain, h]
  · intro e
    simp [switchChain, h]

/-- C5 witness: concrete unsupported-switch outcomes on an EVM chain and
a Cosmos chain for a wallet reporting chain id 1. -/
theorem switchChain_unsupported_policy_witness :
    switchChain (some ⟨Sum.inl 1, some "addr1"⟩) (some ⟨Ctx.ETH⟩) (Sum.inl 137)
        (.error .notSupported) (.ok ()) = ⟨.ok none, 1, 0⟩ ∧
    switchChain (some ⟨Sum.inl 1, some "addr1"⟩) (some ⟨Ctx.ETH⟩) (Sum.inl 137)
        (.error (.other "rpc down")) (.ok ())
      = ⟨.error (.adapter (.other "rpc down")), 1, 0⟩ ∧
    switchChain (some ⟨Sum.inl 1, some "addr1"⟩) (some ⟨Ctx.COSMOS⟩) (Sum.inl 137)
        (.ok ()) (.error .notSupported)
      = ⟨.error (.adapter .notSupported), 0, 1⟩ := by
  have h := switchChain_unsupported_policy ⟨Sum.inl 1, some "addr1"⟩ (Sum.inl 137)
    (.ok ()) (.ok ()) (by decide)
  have h2 := switchChain_unsupported_policy ⟨Sum.inl 1, some "addr1"⟩ (Sum.inl 137)
    (.error .notSupported) (.ok ()) (by decide)
  have h3 := switchChain_unsupported_policy ⟨Sum.inl 1, some "addr1"⟩ (Sum.inl 137)
    (.ok ()) (.ok ()) (by decide)
  exact ⟨h.1, h3.2.1 "rpc down", h2.2.2 .notSupported⟩

/-- C8: `signAndSendTransaction` fails with the wallet-undefined error
when no wallet is bound to the role; with a bound wallet it returns the
EVM, Solana, Sui or Aptos adapter's outcome according to the chain
context (successes and failures alike), and fails `unimplemented` for
the Cosmos and Sei contexts. -/
theorem signAndSendTransaction_dispatch :
    (∀ chainCfg evmSend solanaSend suiSend aptosSend,
        signAndSendTransaction chainCfg none evmSend solanaSend suiSend aptosSend
          = .error "wallet is undefined") ∧
    (∀ (w : WalletH) evmSend solanaSend suiSend aptosSend,
        signAndSendTransaction (some ⟨Ctx.ETH⟩) (some w) evmSend solanaSend
            suiSend aptosSend = evmSend ∧
        signAndSendTransaction (some ⟨Ctx.SOLANA⟩) (some w) evmSend solanaSend
            suiSend aptosSend = solanaSend ∧
        signAndSendTransaction (some ⟨Ctx.SUI⟩) (some w) evmSend solanaSend
            suiSend aptosSend = suiSend ∧
        signAndSendTransaction (some ⟨Ctx.APTOS⟩) (some w) evmSend solanaSend
            suiSend aptosSend = aptosSend ∧
        signAndSendTransaction (some ⟨Ctx.COSMOS⟩) (some w) evmSend solanaSend
            suiSend aptosSend = .error "unimplemented" ∧
        signAndSendTransaction (some ⟨Ctx.SEI⟩) (some w) evmSend solanaSend
            suiSend aptosSend = .error "unimplemented") := by
  constructor
  · intro chainCfg evmSend solanaSend suiSend aptosSend
    rfl
  · intro w evmSend solanaSend suiSend aptosSend
    exact ⟨rfl, rfl, rfl, rfl, rfl, rfl⟩

/-- C4 counterexample: with a persisted marker naming MetaMask, MetaMask
among the wallet options, and the inner `connectWallet` failing, the
failure escapes `connectLastUsedWallet` — nothing swallows it. -/
theorem connectLastUsedWallet_error_escapes :
    (connectLastUsedWallet (some "MetaMask") [⟨"MetaMask"⟩]
        (.error "connect failed")).result = .error "connect failed" := by
  rfl

/-- C4 (amended): `connectLastUsedWallet` attempts a reconnect only when
the persisted marker exists, is non-empty, names a wallet other than
WalletConnect, and that wallet is among the available options; when it
does attempt, the inner `connectWallet` outcome — failures included —
propagates to the caller unchanged. -/
theorem connectLastUsedWallet_policy :
    (∀ options connectResult,
        connectLastUsedWallet none options connectResult = ⟨.ok (), 0⟩) ∧
    (∀ options connectResult,
        connectLastUsedWallet (some "WalletConnect") options connectResult
          = ⟨.ok (), 0⟩ ∧
        connectLastUsedWallet (some "") options connectResult = ⟨.ok (), 0⟩) ∧
    (∀ name options connectResult,
        (connectLastUsedWallet (some name) options connectResult).connectAttempts
            = 1 →
        name ≠ "" ∧ name ≠ "WalletConnect" ∧
          (options.find? (fun w => w.name == name)).isSome = true) ∧
    (∀ name options connectResult o,
        name ≠ "" → name ≠ "WalletConnect" →
        options.find? (fun w => w.name == name) = some o →
        connectLastUsedWallet (some name) options connectResult
          = ⟨connectResult, 1⟩) := by
  refine ⟨?_, ?_, ?_, ?_⟩
  · intro options connectResult
    rfl
  · intro options connectResult
    exact ⟨by simp [connectLastUsedWallet], by simp [connectLastUsedWallet]⟩
  · intro name options connectResult h
    by_cases h1 : name = ""
    · subst h1
      simp [connectLastUsedWallet] at h
    · by_cases h2 : name = "WalletConnect"
      · subst h2
        simp [connectLastUsedWallet] at h
      · refine ⟨h1, h2, ?_⟩
        simp only [connectLastUsedWallet] at h
        rw [if_pos (⟨h1, h2⟩ : name ≠ "" ∧ name ≠ "WalletConnect")] at h
        cases hf : options.find? (fun w => w.name == name) with
        | none => rw [hf] at h; exact absurd h (by simp)
        | some o => simp [hf]
  · intro name options connectResult o h1 h2 hf
    simp only [connectLastUsedWallet]
    rw [if_pos (⟨h1, h2⟩ : name ≠ "" ∧ name ≠ "WalletConnect"), hf]

/-- C4 witness: the guard branches and a propagated failure at concrete
inputs. -/
theorem connectLastUsedWallet_policy_witness :
    connectLastUsedWallet none [⟨"MetaMask"⟩] (.ok ()) = ⟨.ok (), 0⟩ ∧
    connectLastUsedWallet (some "WalletConnect") [⟨"MetaMask"⟩] (.ok ())
      = ⟨.ok (), 0⟩ ∧
    connectLastUsedWallet (some "MetaMask") [⟨"MetaMask"⟩] (.error "boom")
      = ⟨.error "boom", 1⟩ :=
  ⟨connectLastUsedWallet_policy.1 [⟨"MetaMask"⟩] (.ok ()),
   (connectLastUsedWallet_policy.2.1 [⟨"MetaMask"⟩] (.ok ())).1,
   connectLastUsedWallet_policy.2.2.2 "MetaMask" [⟨"MetaMask"⟩] (.error "boom")
     ⟨"MetaMask"⟩ (by decide) (by decide) (by decide)⟩

/-- The dispatcher on the token-bridge route kind. -/
theorem parseReceipt_eq_tb (rc : TBReceipt) (env : TBEnv) :
    parseReceipt "ManualTokenBridge" (.tb rc env) = parseTokenBridgeReceipt rc env := rfl

/-- The dispatcher on the CCTP route kind. -/
theorem parseReceipt_eq_cctp (rc : CCTPReceipt) (env : CCTPEnv) :
    parseReceipt "ManualCCTP" (.cctp rc env) = parseCCTPReceipt rc env := rfl

/-- The dispatcher on the manual NTT route kind. -/
theorem parseReceipt_eq_ntt_manual (rc : NttReceipt) (env : NttEnv) :
    parseReceipt "ManualNtt" (.ntt rc env) = parseNttReceipt rc env := rfl

/-- The dispatcher on the automatic NTT route kind. -/
theorem parseReceipt_eq_ntt_auto (rc : NttReceipt) (env : NttEnv) :
    parseReceipt "AutomaticNtt" (.ntt rc env) = parseNttReceipt rc env := rfl

/-- The shared origin-transaction handling, token-bridge variant. -/
theorem parseTokenBridgeReceipt_sendTx (rc : TBReceipt) (env : TBEnv) :
    ((rc.originTxs = none ∨ rc.originTxs = some []) →
      parseTokenBridgeReceipt rc env = .error .missingSourceTx) ∧
    (∀ ti, parseTokenBridgeReceipt rc env = .ok ti →
      ∃ txs lastTx, rc.originTxs = some txs ∧ txs.getLast? = some lastTx ∧
        ti.sendTx = lastTx.txid) := by
  constructor
  · rintro (h | h) <;> simp [parseTokenBridgeReceipt, lastOriginTx, h]
  · intro ti hok
    unfold parseTokenBridgeReceipt at hok
    cases ho : rc.originTxs with
    | none => rw [ho] at hok; simp [lastOriginTx] at hok
    | some txs =>
      rw [ho] at hok
      simp only [lastOriginTx] at hok
      cases hl : txs.getLast? with
      | none => rw [hl] at hok; simp at hok
      | some lastTx =>
        rw [hl] at hok
        refine ⟨txs, lastTx, rfl, hl, ?_⟩
        repeat' split at hok
        all_goals simp_all
        all_goals (subst hok; rfl)

/-- The shared origin-transaction handling, CCTP variant. -/
theorem parseCCTPReceipt_sendTx (rc : CCTPReceipt) (env : CCTPEnv) :
    ((rc.originTxs = none ∨ rc.originTxs = some []) →
      parseCCTPReceipt rc env = .error .missingSourceTx) ∧
    (∀ ti, parseCCTPReceipt rc env = .ok ti →
      ∃ txs lastTx, rc.originTxs = some txs ∧ txs.getLast? = some lastTx ∧
        ti.sendTx = lastTx.txid) := by
  constructor
  · rintro (h | h) <;> simp [parseCCTPReceipt, lastOriginTx, h]
  · intro ti hok
    unfold parseCCTPReceipt at hok
    cases ho : rc.originTxs with
    | none => rw [ho] at hok; simp [lastOriginTx] at hok
    | some txs =>
      rw [ho] at hok
      simp only [lastOriginTx] at hok
      cases hl : txs.getLast? with
      | none => rw [hl] at hok; simp at hok
      | some lastTx =>
        rw [hl] at hok
        refine ⟨txs, lastTx, rfl, hl, ?_⟩
        repeat' split at hok
        all_goals simp_all
        all_goals (subst hok; rfl)

/-- The shared origin-transaction handling, NTT variant. -/
theorem parseNttReceipt_sendTx (rc : NttReceipt) (env : NttEnv) :
    ((rc.originTxs = none ∨ rc.originTxs = some []) →
      parseNttReceipt rc env = .error .missingSourceTx) ∧
    (∀ ti, parseNttReceipt rc env = .ok ti →
      ∃ txs lastTx, rc.originTxs = some txs ∧ txs.getLast? = some lastTx ∧
        ti.sendTx = lastTx.txid) := by
  constructor
  · rintro (h | h) <;> simp [parseNttReceipt, lastOriginTx, h]
  · intro ti hok
    unfold parseNttReceipt at hok
    cases ho : rc.originTxs with
    | none => rw [ho] at hok; simp [lastOriginTx] at hok
    | some txs =>
      rw [ho] at hok
      simp only [lastOriginTx] at hok
      cases hl : txs.getLast? with
      | none => rw [hl] at hok; simp at hok
      | some lastTx =>
        rw [hl] at hok
        refine ⟨txs, lastTx, rfl, hl, ?_⟩
        repeat' split at hok
        all_goals simp_all
        all_goals (subst hok; rfl)

/-- C6: for each of the four route kinds, a receipt whose
origin-transaction list is absent or empty fails with the
missing-source-transaction error, and a successful parse sets `sendTx`
to the txid of the last origin transaction. -/
theorem parseReceipt_origin_txs (route : String) (r : AnyReceipt)
    (h : routeMatches route r = true) :
    ((originTxsOf r = none ∨ originTxsOf r = some []) →
      parseReceipt route r = .error .missingSourceTx) ∧
    (∀ ti, parseReceipt route r = .ok ti →
      ∃ txs lastTx, originTxsOf r = some txs ∧ txs.getLast? = some lastTx ∧
        ti.sendTx = lastTx.txid) := by
  cases r with
  | tb rc env =>
    have hr : route = "ManualTokenBridge" := by simpa [routeMatches] using h
    subst hr
    simpa [parseReceipt_eq_tb, originTxsOf] using parseTokenBridgeReceipt_sendTx rc env
  | cctp rc env =>
    have hr : route = "ManualCCTP" := by simpa [routeMatches] using h
    subst hr
    simpa [parseReceipt_eq_cctp, originTxsOf] using parseCCTPReceipt_sendTx rc env
  | ntt rc env =>
    have hr : route = "ManualNtt" ∨ route = "AutomaticNtt" := by
      simpa [routeMatches] using h
    rcases hr with hr | hr <;> subst hr
    · simpa [parseReceipt_eq_ntt_manual, originTxsOf] using parseNttReceipt_sendTx rc env
    · simpa [parseReceipt_eq_ntt_auto, originTxsOf] using parseNttReceipt_sendTx rc env

/-- C6 witness: an empty origin-transaction list fails the CCTP route
kind, and a successful automatic-NTT parse takes the last of two origin
transactions. -/
theorem parseReceipt_origin_txs_witness :
    parseReceipt "ManualCCTP" (.cctp cctpReceiptEmpty cctpEnvEmpty)
        = .error .missingSourceTx ∧
    (∃ txs lastTx,
      originTxsOf (.ntt nttReceiptTwo nttEnvTwo) = some txs ∧
      txs.getLast? = some lastTx ∧ nttInfoTwo.sendTx = lastTx.txid) := by
  constructor
  · exact (parseReceipt_origin_txs "ManualCCTP"
      (.cctp cctpReceiptEmpty cctpEnvEmpty) rfl).1 (Or.inr rfl)
  · exact (parseReceipt_origin_txs "AutomaticNtt" (.ntt nttReceiptTwo nttEnvTwo)
      rfl).2 nttInfoTwo (by rfl)

/-- C3: every successful token-bridge parse renders `amount` as the wire
amount at `min(8, tokenDecimals)` fractional precision; in particular an
18-decimal token with wire amount 123456789 displays `"1.23456789"` and
a 6-decimal token with wire amount 150000000 displays `"150"`. -/
theorem parseTokenBridgeReceipt_amount_precision :
    (∀ (rc : TBReceipt) (env : TBEnv) ti tok,
        rc.payload.token = some tok →
        parseTokenBridgeReceipt rc env = .ok ti →
        ti.tokenDecimals = env.decimals ∧
        ti.amount = amountDisplay tok.amount (min 8 env.decimals)) ∧
    (∃ ti, parseTokenBridgeReceipt tbReceipt18 tbEnv18 = .ok ti ∧
       ti.amount = "1.23456789" ∧ ti.tokenDecimals = 18) ∧
    (∃ ti, parseTokenBridgeReceipt tbReceipt6 tbEnv6 = .ok ti ∧
       ti.amount = "150" ∧ ti.tokenDecimals = 6) := by
  refine ⟨?_, ⟨_, rfl, rfl, rfl⟩, ⟨_, rfl, rfl, rfl⟩⟩
  intro rc env ti tok htok hok
  unfold parseTokenBridgeReceipt at hok
  cases hlast : lastOriginTx rc.originTxs with
  | none => simp only [hlast] at hok; exact absurd hok (by simp)
  | some lastTx =>
    simp only [hlast, htok] at hok
    cases hv1 : env.tokenV1 with
    | none => simp only [hv1] at hok; exact absurd hok (by simp)
    | some tokenV1 =>
      simp only [hv1] at hok
      cases hr : tbRecipient rc env with
      | error e => simp only [hr] at hok; exact absurd hok (by simp)
      | ok recipient =>
        simp only [hr, Except.ok.injEq] at hok
        subst hok
        exact ⟨rfl, rfl⟩

/-- C3 witness: the 18-decimal example, its precision facts obtained by
applying the main theorem at the concrete receipt. -/
theorem parseTokenBridgeReceipt_amount_precision_witness :
    tbReceipt18.payload.token = some ⟨"Ethereum", "0xweth", 123456789⟩ ∧
    ∃ ti, parseTokenBridgeReceipt tbReceipt18 tbEnv18 = .ok ti ∧
      ti.tokenDecimals = tbEnv18.decimals ∧
      ti.amount = amountDisplay 123456789 (min 8 tbEnv18.decimals) := by
  refine ⟨rfl, ?_⟩
  obtain ⟨ti, hok, hamt, hdec⟩ := parseTokenBridgeReceipt_amount_precision.2.1
  have h := parseTokenBridgeReceipt_amount_precision.1 tbReceipt18 tbEnv18 ti
    ⟨"Ethereum", "0xweth", 123456789⟩ rfl hok
  exact ⟨ti, hok, h.1, h.2⟩
